import Mathlib

/-!
# Verification of the sql-playground-api explanation pipeline

Shallow embedding of the service's explanation-computation pipeline:
the `/v1/explain` route handler, the engine-service orchestration
(`explainSQLService`), the EXPLAIN-plan dispatch (`parseExplainPlan`),
the LLM provider factory and its two variants, the Redis cache layer,
and the `/health` route.  External collaborators (the `@sql-playground/engine`
fingerprinter, sanitizer, plan parsers and heuristic analyzer, the Prisma
store, Redis, and the OpenAI endpoint) are modelled as explicit parameters
or as explicit state, exactly at the interfaces the source consumes.

JavaScript numbers that only flow through the pipeline are modelled as
`Int`/`Nat`; `Math.random()` is modelled as an explicit per-call draw;
`JSON.parse` is modelled by the executable `jsonParse` below; effects that
the source awaits are recorded, in order, in an explicit event trace.
-/

namespace SqlPlayground

/-- Does the needle character list occur as a prefix of the haystack? -/
def charsStartWith : List Char → List Char → Bool
  | [], _ => true
  | _ :: _, [] => false
  | n :: ns, h :: hs => (n = h) && charsStartWith ns hs

/-- Does the needle character list occur anywhere inside the haystack? -/
def charsContain (needle : List Char) : List Char → Bool
  | [] => needle.isEmpty
  | h :: hs => charsStartWith needle (h :: hs) || charsContain needle hs

/-- Model of JavaScript `haystack.includes(needle)` for strings. -/
def strContains (haystack needle : String) : Bool :=
  charsContain needle.data haystack.data

/-- Model of JavaScript `s.toUpperCase()` (ASCII case mapping suffices here). -/
def jsToUpper (s : String) : String :=
  ⟨s.data.map Char.toUpper⟩

/-- Model of JavaScript `xs.join(',')`. -/
def joinComma : List String → String
  | [] => ""
  | [x] => x
  | x :: xs => x ++ "," ++ joinComma xs

/-- JavaScript `xs[0]` interpolated into a template literal: an empty list
gives `undefined`, which stringifies to the text "undefined". -/
def headOrUndefined : List String → String
  | [] => "undefined"
  | c :: _ => c

/-- JavaScript `a || b` on strings: the empty string is falsy. -/
def jsOrStr (a b : String) : String :=
  if a = "" then b else a

/-- JavaScript `a || b` where `a` is a `string | undefined` value. -/
def jsOrOpt (a b : Option String) : Option String :=
  match a with
  | some s => if s = "" then b else some s
  | none => b

/-- JavaScript truthiness of a `string | undefined` value. -/
def jsTruthy : Option String → Bool
  | some s => s ≠ ""
  | none => false

/-- Decimal digits of a natural number, with explicit recursion fuel. -/
def natDigits : Nat → Nat → List Char
  | 0, _ => []
  | fuel + 1, n =>
    if n < 10 then [Char.ofNat (48 + n)]
    else natDigits fuel (n / 10) ++ [Char.ofNat (48 + n % 10)]

/-- Decimal representation of a natural number. -/
def natRepr (n : Nat) : String :=
  ⟨natDigits (n + 1) n⟩

/-- Decimal representation of an integer. -/
def intRepr : Int → String
  | Int.ofNat n => natRepr n
  | Int.negSucc n => "-" ++ natRepr (n + 1)

/-- JSON values, as produced by `JSON.parse`.  Numbers keep their source
numeral text: no claim in this development inspects numeric values. -/
inductive Json where
  | null
  | bool (b : Bool)
  | num (raw : String)
  | str (s : String)
  | arr (elems : List Json)
  | obj (fields : List (String × Json))

/-- Is this JSON value an array (JavaScript `Array.isArray`)? -/
def Json.isArr : Json → Bool
  | Json.arr _ => true
  | _ => false

/-- The double-quote character. -/
def quoteChar : Char := Char.ofNat 34

/-- The backslash character. -/
def backslashChar : Char := Char.ofNat 92

/-- Value of a hexadecimal digit character, if it is one. -/
def hexVal (c : Char) : Option Nat :=
  if '0' ≤ c ∧ c ≤ '9' then some (c.toNat - 48)
  else if 'a' ≤ c ∧ c ≤ 'f' then some (c.toNat - 87)
  else if 'A' ≤ c ∧ c ≤ 'F' then some (c.toNat - 55)
  else none

/-- Translation of a single-character JSON escape sequence. -/
def escapeChar (e : Char) : Option Char :=
  if e = quoteChar then some quoteChar
  else if e = backslashChar then some backslashChar
  else if e = '/' then some '/'
  else if e = 'n' then some '\n'
  else if e = 't' then some '\t'
  else if e = 'r' then some '\r'
  else if e = 'b' then some (Char.ofNat 8)
  else if e = 'f' then some (Char.ofNat 12)
  else none

/-- Parse the body of a JSON string literal (opening quote already
consumed); returns the decoded characters and the rest of the input. -/
def parseStringChars : List Char → Option (List Char × List Char)
  | [] => none
  | c :: rest =>
    if c = quoteChar then some ([], rest)
    else if c = backslashChar then
      match rest with
      | [] => none
      | e :: rest2 =>
        if e = 'u' then
          match rest2 with
          | a :: b :: c2 :: d :: rest3 =>
            match hexVal a, hexVal b, hexVal c2, hexVal d with
            | some ha, some hb, some hc, some hd =>
              (parseStringChars rest3).map
                (fun p => (Char.ofNat (((ha * 16 + hb) * 16 + hc) * 16 + hd) :: p.1, p.2))
            | _, _, _, _ => none
          | _ => none
        else
          match escapeChar e with
          | some ec => (parseStringChars rest2).map (fun p => (ec :: p.1, p.2))
          | none => none
    else (parseStringChars rest).map (fun p => (c :: p.1, p.2))

/-- Is this character a decimal digit? -/
def isDigitChar (c : Char) : Bool :=
  '0' ≤ c && c ≤ '9'

/-- Is this character JSON whitespace? -/
def isWsChar (c : Char) : Bool :=
  c = ' ' || c = '\n' || c = '\t' || c = '\r'

/-- Drop leading JSON whitespace. -/
def skipWs (cs : List Char) : List Char :=
  cs.dropWhile isWsChar

/-- Consume an expected literal character list; fails otherwise. -/
def dropLitChars : List Char → List Char → Option (List Char)
  | [], cs => some cs
  | _ :: _, [] => none
  | n :: ns, c :: cs => if n = c then dropLitChars ns cs else none

/-- Parse the optional fraction part of a JSON number. -/
def parseFracChars (cs : List Char) : Option (List Char × List Char) :=
  match cs with
  | c :: rest =>
    if c = '.' then
      let ds := rest.takeWhile isDigitChar
      if ds.isEmpty then none
      else some (c :: ds, rest.dropWhile isDigitChar)
    else some ([], cs)
  | [] => some ([], cs)

/-- Parse the optional exponent part of a JSON number. -/
def parseExpChars (cs : List Char) : Option (List Char × List Char) :=
  match cs with
  | c :: rest =>
    if c = 'e' || c = 'E' then
      let (sign, rest2) :=
        match rest with
        | s :: r2 => if s = '+' || s = '-' then ([s], r2) else ([], rest)
        | [] => ([], rest)
      let ds := rest2.takeWhile isDigitChar
      if ds.isEmpty then none
      else some (c :: sign ++ ds, rest2.dropWhile isDigitChar)
    else some ([], cs)
  | [] => some ([], cs)

/-- Parse a JSON number starting at the head of the input; returns its raw
numeral text and the rest of the input. -/
def parseNumberChars (cs : List Char) : Option (List Char × List Char) :=
  let (sign, cs1) :=
    match cs with
    | c :: rest => if c = '-' then ([c], rest) else ([], cs)
    | [] => ([], cs)
  let intDigits := cs1.takeWhile isDigitChar
  if intDigits.isEmpty then none
  else
    match parseFracChars (cs1.dropWhile isDigitChar) with
    | none => none
    | some (frac, cs2) =>
      match parseExpChars cs2 with
      | none => none
      | some (ex, cs3) => some (sign ++ intDigits ++ frac ++ ex, cs3)

mutual

/-- Parse one JSON value.  The fuel argument strictly decreases on every
recursive call; `jsonParse` supplies enough fuel for any input. -/
def parseJsonValue : Nat → List Char → Option (Json × List Char)
  | 0, _ => none
  | fuel + 1, cs0 =>
    let cs := skipWs cs0
    match cs with
    | [] => none
    | c :: rest =>
      if c = quoteChar then
        (parseStringChars rest).map (fun p => (Json.str ⟨p.1⟩, p.2))
      else if c = '\x7b' then
        let cs2 := skipWs rest
        match cs2 with
        | d :: rest2 =>
          if d = '\x7d' then some (Json.obj [], rest2)
          else (parseJsonMembers fuel cs2).map (fun p => (Json.obj p.1, p.2))
        | [] => none
      else if c = '[' then
        let cs2 := skipWs rest
        match cs2 with
        | d :: rest2 =>
          if d = ']' then some (Json.arr [], rest2)
          else (parseJsonElems fuel cs2).map (fun p => (Json.arr p.1, p.2))
        | [] => none
      else if c = 'n' then
        (dropLitChars ['u', 'l', 'l'] rest).map (fun r => (Json.null, r))
      else if c = 't' then
        (dropLitChars ['r', 'u', 'e'] rest).map (fun r => (Json.bool true, r))
      else if c = 'f' then
        (dropLitChars ['a', 'l', 's', 'e'] rest).map (fun r => (Json.bool false, r))
      else
        (parseNumberChars cs).map (fun p => (Json.num ⟨p.1⟩, p.2))

/-- Parse the comma-separated elements of a JSON array, up to and including
the closing bracket. -/
def parseJsonElems : Nat → List Char → Option (List Json × List Char)
  | 0, _ => none
  | fuel + 1, cs =>
    match parseJsonValue fuel cs with
    | none => none
    | some (j, rest) =>
      match skipWs rest with
      | c :: rest2 =>
        if c = ',' then
          (parseJsonElems fuel rest2).map (fun p => (j :: p.1, p.2))
        else if c = ']' then some ([j], rest2)
        else none
      | [] => none

/-- Parse the comma-separated members of a JSON object, up to and including
the closing brace. -/
def parseJsonMembers : Nat → List Char → Option (List (String × Json) × List Char)
  | 0, _ => none
  | fuel + 1, cs =>
    match skipWs cs with
    | c :: rest =>
      if c = quoteChar then
        match parseStringChars rest with
        | none => none
        | some (key, rest2) =>
          match skipWs rest2 with
          | d :: rest3 =>
            if d = ':' then
              match parseJsonValue fuel rest3 with
              | none => none
              | some (j, rest4) =>
                match skipWs rest4 with
                | e :: rest5 =>
                  if e = ',' then
                    (parseJsonMembers fuel rest5).map
                      (fun p => ((⟨key⟩, j) :: p.1, p.2))
                  else if e = '\x7d' then some ([(⟨key⟩, j)], rest5)
                  else none
                | [] => none
            else none
          | [] => none
      else none
    | [] => none

end

/-- Model of JavaScript `JSON.parse`: `none` models a thrown `SyntaxError`. -/
def jsonParse (s : String) : Option Json :=
  match parseJsonValue (s.length + 1) s.data with
  | some (j, rest) => if (skipWs rest).isEmpty then some j else none
  | none => none

/-- Severity levels used by optimization suggestions and antipatterns. -/
inductive Severity where
  | low
  | medium
  | high
deriving DecidableEq

/-- Confidence levels of an explanation result. -/
inductive Confidence where
  | low
  | medium
  | high
deriving DecidableEq

/-- Plan-node cost estimate, `{startup, total}`. -/
structure Cost where
  startup : Int
  total : Int
deriving DecidableEq

/-- One entry of `ExplanationResult.planAnalysis` (the LLM reply schema). -/
structure PlanAnalysisNode where
  nodeId : String
  operation : String
  estimatedRows : Option Int
  actualRows : Option Int
  cost : Option Cost
  hotnessScore : Nat
  explanation : String
deriving DecidableEq

/-- One entry of `ExplanationResult.optimizations`. -/
structure OptimizationSuggestion where
  title : String
  severity : Severity
  reason : String
  change : String
  estimatedImpact : String
deriving DecidableEq

/-- One entry of `ExplanationResult.antipatterns`. -/
structure Antipattern where
  name : String
  severity : Severity
  explain : String
deriving DecidableEq

/-- Query fingerprint produced by the external engine's `fingerprint`. -/
structure QueryFingerprint where
  hash : String
  pattern : String
  tables : List String
  joinCount : Nat
  whereClauseComplexity : Nat
deriving DecidableEq

/-- The `ExplanationResult` shape from `@sql-playground/engine`, as consumed
and produced throughout `llmProvider.ts` and `engineService.ts`. -/
structure ExplanationResult where
  summary : String
  walkthrough : List String
  planAnalysis : List PlanAnalysisNode
  optimizations : List OptimizationSuggestion
  antipatterns : List Antipattern
  rewrittenSQL : Option String
  confidence : Confidence
  fingerprint : QueryFingerprint
  executionTimeMs : Nat
deriving DecidableEq

/-- The `LLMRequest` interface of `llmProvider.ts`. -/
structure LLMRequest where
  sql : String
  sanitizedSql : Option String
  dialect : String
  schema : Option String
  explainPlan : Option String
  privacyMode : Bool
deriving DecidableEq

/-- A recommendation emitted by the external heuristic analyzer
(`analyzeExplainPlan(...).recommendations` entries). -/
structure Recommendation where
  type : String
  table : String
  columns : List String
  reason : String
deriving DecidableEq

/-- Normalized EXPLAIN-plan tree (`ExplainNode` of the external engine). -/
inductive ExplainNode where
  | node (nodeId : String) (operation : String)
      (estimatedRows : Option Int) (actualRows : Option Int)
      (cost : Option Cost) (children : List ExplainNode)

/-- The record persisted by `prisma.explanationCache.create` in
`engineService.ts`. -/
structure CacheRecord where
  queryHash : String
  queryPattern : String
  sql : String
  sanitizedSql : String
  dialect : String
  explanation : ExplanationResult
  confidence : Confidence
deriving DecidableEq

/-- `LocalStubProvider.explainSQL` from `llmProvider.ts` (lines 149-203).
The source computes `executionTimeMs: Math.random() * 100`; the random draw
is made explicit as the `mathRandomDraw` argument, a fresh value per call.
Every other field is computed exactly as in the source, from the
case-insensitive presence of SELECT, JOIN and WHERE in `request.sql`. -/
def LocalStubProvider.explainSQL (request : LLMRequest) (mathRandomDraw : Nat) :
    ExplanationResult :=
  let isSelect := strContains (jsToUpper request.sql) "SELECT"
  let isJoin := strContains (jsToUpper request.sql) "JOIN"
  let hasWhere := strContains (jsToUpper request.sql) "WHERE"
  { summary :=
      if isSelect then
        "Execute a " ++ (if isJoin then "join " else "") ++ "SELECT query" ++
          (if hasWhere then " with filtering" else "")
      else "Execute a data modification"
  , walkthrough :=
      [ if isSelect then "Parse SELECT columns" else "Parse statement"
      , if isJoin then "Join tables" else "Access table"
      , if hasWhere then "Apply WHERE filters" else "Process all rows"
      , "Return results" ]
  , planAnalysis :=
      [ { nodeId := "node_0"
        , operation := if hasWhere then "SeqScan" else "SeqScan"
        , estimatedRows := some 1000
        , actualRows := none
        , cost := some { startup := 0, total := 100 }
        , hotnessScore := if hasWhere then 75 else 30
        , explanation := "Basic table scan" } ]
  , optimizations :=
      if hasWhere then
        [ { title := "Add index on filtered column"
          , severity := Severity.medium
          , reason := "WHERE clause would benefit from index"
          , change := "CREATE INDEX idx_filtered ON table(column)"
          , estimatedImpact := "2-5x faster filtering" } ]
      else []
  , antipatterns := []
  , rewrittenSQL := some request.sql
  , confidence := Confidence.low
  , fingerprint :=
      { hash := "stub_hash_1234567890"
      , pattern := "STUB_PATTERN"
      , tables := ["stub_table"]
      , joinCount := if isJoin then 1 else 0
      , whereClauseComplexity := if hasWhere then 1 else 0 }
  , executionTimeMs := mathRandomDraw }

/-- The reply-handling step of `OpenAIProvider.explainSQL` (`llmProvider.ts`
lines 113-123): `JSON.parse(responseText) as ExplanationResult` inside a
try/catch.  A parse failure throws `Invalid LLM response format`; a
successful parse is returned as-is — the `as` cast performs no validation. -/
def parseOpenAIResponse (responseText : String) : Except String Json :=
  match jsonParse responseText with
  | some j => Except.ok j
  | none => Except.error "Invalid LLM response format"

/-- Are all elements of this list JSON strings? -/
def allStringsJson : List Json → Bool
  | [] => true
  | Json.str _ :: js => allStringsJson js
  | _ :: _ => false

/-- Look up a field of a JSON object member list. -/
def lookupField : List (String × Json) → String → Option Json
  | [], _ => none
  | (k, v) :: rest, key => if k = key then some v else lookupField rest key

/-- Second definition for the refinement claim about backend replies,
following the spec's words (§4.3: the reply is parsed "strictly as JSON
matching the ExplanationResult shape"): a JSON value matches the
`ExplanationResult` shape when it is an object whose `summary` is a string,
whose `walkthrough` is an array of strings, whose `planAnalysis`,
`optimizations` and `antipatterns` are arrays, and whose `confidence` is one
of "low", "medium", "high". -/
def specExplanationResultShape (j : Json) : Bool :=
  match j with
  | Json.obj fields =>
    (match lookupField fields "summary" with
     | some (Json.str _) => true
     | _ => false) &&
    (match lookupField fields "walkthrough" with
     | some (Json.arr xs) => allStringsJson xs
     | _ => false) &&
    (match lookupField fields "planAnalysis" with
     | some (Json.arr _) => true
     | _ => false) &&
    (match lookupField fields "optimizations" with
     | some (Json.arr _) => true
     | _ => false) &&
    (match lookupField fields "antipatterns" with
     | some (Json.arr _) => true
     | _ => false) &&
    (match lookupField fields "confidence" with
     | some (Json.str c) => c = "low" || c = "medium" || c = "high"
     | _ => false)
  | _ => false

/-- The environment variables consulted by the provider factory.  The empty
string models an unset variable, matching JavaScript falsiness under `||`. -/
structure Env where
  llmProviderVar : String
  nodeEnv : String
  openaiApiKey : String
deriving DecidableEq

/-- The provider value the factory yields. -/
inductive ProviderKind where
  | openai (apiKey : String)
  | stub
deriving DecidableEq

/-- The `OpenAIProvider` constructor (`llmProvider.ts` lines 83-88):
`this.apiKey = apiKey || process.env.OPENAI_API_KEY || ''`, then throws
when the key is empty. -/
def OpenAIProvider.construct (env : Env) (apiKeyArg : String) :
    Except String ProviderKind :=
  let key := jsOrStr apiKeyArg (jsOrStr env.openaiApiKey "")
  if key = "" then Except.error "OPENAI_API_KEY environment variable not set"
  else Except.ok (ProviderKind.openai key)

/-- `createLLMProvider` from `llmProvider.ts` (lines 208-220):
`provider = providerName || process.env.LLM_PROVIDER || 'openai'`, then the
`'openai'` branch is checked before the `'stub' || NODE_ENV === 'test'`
branch; the factory calls `new OpenAIProvider()` with no argument. -/
def createLLMProvider (env : Env) (providerName : String) :
    Except String ProviderKind :=
  let provider := jsOrStr providerName (jsOrStr env.llmProviderVar "openai")
  if provider = "openai" then OpenAIProvider.construct env ""
  else if provider = "stub" || env.nodeEnv = "test" then
    Except.ok ProviderKind.stub
  else Except.error ("Unknown LLM provider: " ++ provider)

/-- The dialect-specific plan parsers imported from `@sql-playground/engine`
(external collaborators, modelled as parameters; `Except.error` models a
thrown exception). -/
structure EngineParsers where
  parsePostgresExplainJson : List Json → Except String ExplainNode
  parsePostgresExplainText : String → Except String ExplainNode
  parseMysqlExplainJson : Json → Except String ExplainNode
  parseSqliteExplainQueryPlan : String → Except String ExplainNode

/-- `parseExplainPlan` from `engineService.ts` (lines 224-253), translated
branch by branch.  In the postgres arm the whole of "JSON.parse; if array,
JSON-shape parse" sits inside one `try` whose `catch` calls the text parser,
so a throwing JSON-shape parse also falls back to text; and when the JSON
parse succeeds with a non-array value, control falls out of the `if` block
and reaches the trailing `throw new Error('Unsupported dialect: ...')`. -/
def parseExplainPlan (P : EngineParsers) (explainOutput dialect : String) :
    Except String ExplainNode :=
  if dialect = "postgres" then
    match jsonParse explainOutput with
    | some (Json.arr xs) =>
      match P.parsePostgresExplainJson xs with
      | Except.ok n => Except.ok n
      | Except.error _ => P.parsePostgresExplainText explainOutput
    | some _ => Except.error ("Unsupported dialect: " ++ dialect)
    | none => P.parsePostgresExplainText explainOutput
  else if dialect = "mysql" then
    match jsonParse explainOutput with
    | some j =>
      match P.parseMysqlExplainJson j with
      | Except.ok n => Except.ok n
      | Except.error _ => Except.error "MySQL text format EXPLAIN not yet supported"
    | none => Except.error "MySQL text format EXPLAIN not yet supported"
  else if dialect = "sqlite" then
    P.parseSqliteExplainQueryPlan explainOutput
  else Except.error ("Unsupported dialect: " ++ dialect)

/-- The recommendation-to-suggestion mapping inlined in `explainSQLService`
(`engineService.ts` lines 185-196). -/
def recommendationToSuggestion (rec : Recommendation) : OptimizationSuggestion :=
  let severity :=
    if strContains rec.reason "missing" || strContains rec.reason "sequential" then
      Severity.high
    else Severity.medium
  { title := "Add " ++ rec.type ++ " index on " ++ rec.table ++ "(" ++
      joinComma rec.columns ++ ")"
  , severity := severity
  , reason := rec.reason
  , change := "CREATE INDEX idx_" ++ rec.table ++ "_" ++ headOrUndefined rec.columns ++
      " ON " ++ rec.table ++ "(" ++ joinComma rec.columns ++ ")"
  , estimatedImpact := "2-10x faster queries" }

/-- A JSON string literal (string escaping elided; only reached on a path
the orchestrator never takes, see `explainSQLService`). -/
def jsonStrLit (s : String) : String :=
  "\"" ++ s ++ "\""

mutual

/-- `JSON.stringify` of an `ExplainNode`, omitting absent optional fields. -/
def stringifyExplainNode : ExplainNode → String
  | ExplainNode.node nodeId operation estimatedRows actualRows cost children =>
    "\x7b\"nodeId\":" ++ jsonStrLit nodeId ++
    ",\"operation\":" ++ jsonStrLit operation ++
    (match estimatedRows with
     | some n => ",\"estimatedRows\":" ++ intRepr n
     | none => "") ++
    (match actualRows with
     | some n => ",\"actualRows\":" ++ intRepr n
     | none => "") ++
    (match cost with
     | some c => ",\"cost\":\x7b\"startup\":" ++ intRepr c.startup ++
         ",\"total\":" ++ intRepr c.total ++ "\x7d"
     | none => "") ++
    ",\"children\":[" ++ stringifyExplainNodeList children ++ "]\x7d"

/-- `JSON.stringify` of a list of `ExplainNode` children. -/
def stringifyExplainNodeList : List ExplainNode → String
  | [] => ""
  | [n] => stringifyExplainNode n
  | n :: ns => stringifyExplainNode n ++ "," ++ stringifyExplainNodeList ns

end

/-- One awaited effect of the pipeline, recorded in program order.  The
vocabulary covers every operation the cache library (`lib/cache.ts`) and the
service expose to the route: a trace with no `stampedeLockAcquire` entry is
a run that never called `acquireStampedeLock`. -/
inductive Event where
  | cacheGetOp (key : String)
  | cacheSetOp (key : String)
  | stampedeLockAcquire (key : String)
  | stampedeLockRelease (key : String)
  | backendCall (req : LLMRequest)
  | warnPlanParse (msg : String)
  | persistWrite (rec : CacheRecord)
  | warnPersist
deriving DecidableEq

/-- The collaborators `engineService.ts` consumes, plus whether the Prisma
write succeeds on this run.  `providerExplainSQL` is the provider returned
by `createLLMProvider()`; its `Except.error` models a thrown backend error. -/
structure Deps where
  providerExplainSQL : LLMRequest → Except String ExplanationResult
  parsers : EngineParsers
  fingerprint : String → QueryFingerprint
  sanitizeSQL : String → Bool → String
  analyzeExplainPlan : ExplainNode → List Recommendation
  persistOk : Bool

/-- `explainSQLService` from `engineService.ts` (lines 144-219).  Returns
the trace of awaited effects, in source order, together with the result
(`Except.error` models the thrown backend failure, the only step whose
failure aborts the request).  Step by step: (1) if `explainPlan` is truthy,
try `parseExplainPlan`, logging a warning and keeping no plan on failure;
(2) call the provider with the request built on source lines 169-176;
(3) if a plan was parsed, push one mapped suggestion per analyzer
recommendation onto the backend result's `optimizations`; (4) persist a
`CacheRecord` via Prisma inside a try/catch that logs and swallows failure;
(5) return the explanation. -/
def explainSQLService (D : Deps) (originalSql sanitizedSql dialect : String)
    (schema explainPlan : Option String) :
    List Event × Except String ExplanationResult :=
  let parseStep : List Event × Option ExplainNode :=
    if jsTruthy explainPlan then
      match parseExplainPlan D.parsers (explainPlan.getD "") dialect with
      | Except.ok node => ([], some node)
      | Except.error e => ([Event.warnPlanParse e], none)
    else ([], none)
  let parseEvents := parseStep.1
  let parsedPlan := parseStep.2
  let llmReq : LLMRequest :=
    { sql := originalSql
    , sanitizedSql := some sanitizedSql
    , dialect := dialect
    , schema := schema
    , explainPlan := jsOrOpt explainPlan (parsedPlan.map stringifyExplainNode)
    , privacyMode := true }
  match D.providerExplainSQL llmReq with
  | Except.error e => (parseEvents ++ [Event.backendCall llmReq], Except.error e)
  | Except.ok explanation0 =>
    let fp := D.fingerprint originalSql
    let explanation :=
      match parsedPlan with
      | some p =>
        { explanation0 with
            optimizations := explanation0.optimizations ++
              (D.analyzeExplainPlan p).map recommendationToSuggestion }
      | none => explanation0
    let sanitized := D.sanitizeSQL originalSql true
    let record : CacheRecord :=
      { queryHash := fp.hash
      , queryPattern := fp.pattern
      , sql := originalSql
      , sanitizedSql := sanitized
      , dialect := dialect
      , explanation := explanation
      , confidence := explanation.confidence }
    let persistEvents :=
      if D.persistOk then [Event.persistWrite record]
      else [Event.persistWrite record, Event.warnPersist]
    (parseEvents ++ [Event.backendCall llmReq] ++ persistEvents,
      Except.ok explanation)

/-- State of the Redis result cache: the stored entries (most recent first;
values are kept structurally, standing for their JSON serialization), and
whether the store is reachable. -/
structure CacheState where
  entries : List (String × ExplanationResult)
  up : Bool
deriving DecidableEq

/-- First-match association lookup. -/
def assocFind : List (String × ExplanationResult) → String →
    Option ExplanationResult
  | [], _ => none
  | (k, v) :: rest, key => if k = key then some v else assocFind rest key

/-- `cacheGet` from `lib/cache.ts` (lines 51-62): any failure, including an
unreachable store, is caught and yields `null`. -/
def cacheGet (st : CacheState) (key : String) : Option ExplanationResult :=
  if st.up then assocFind st.entries key else none

/-- `cacheSet` from `lib/cache.ts` (lines 67-77): any failure is caught and
logged, leaving the store unchanged. -/
def cacheSet (st : CacheState) (key : String) (value : ExplanationResult) :
    CacheState :=
  if st.up then { st with entries := (key, value) :: st.entries } else st

/-- A validated `/v1/explain` request body (after the Zod schema of
`types.ts` applied its defaults). -/
structure ExplainReq where
  sql : String
  dialect : String
  schema : Option String
  explainPlan : Option String
  privacyMode : Bool
  cache : Bool
deriving DecidableEq

/-- The `data` object of a successful `/v1/explain` response:
`{...result, cached, fingerprint}`. -/
structure RespData where
  result : ExplanationResult
  cached : Bool
  fingerprint : QueryFingerprint
deriving DecidableEq

/-- Outcome of one `/v1/explain` handler run: HTTP status code, response
data or error message, the cache state afterwards, and the trace of awaited
effects in program order. -/
structure HandlerRun where
  code : Nat
  data : Option RespData
  errorMsg : Option String
  state : CacheState
  events : List Event
deriving DecidableEq

/-- The `/v1/explain` handler body from `routes/explain.ts` (registered by
`registerExplainRoute`, lines 240-337), after validation: compute the
fingerprint and cache key; if `cache`, `await cacheGet`; on a hit answer 200
with the stored result and `cached: true`; on a miss sanitize, run
`explainSQLService`, `await cacheSet` when `cache`, and answer 200 with
`cached: false`; a thrown service error is caught and answered as 500. -/
def handleExplain (D : Deps) (req : ExplainReq) (st : CacheState) : HandlerRun :=
  let fp := D.fingerprint req.sql
  let cacheKey := "explain:" ++ fp.hash
  let getEvents := if req.cache then [Event.cacheGetOp cacheKey] else []
  let lookup := if req.cache then cacheGet st cacheKey else none
  match lookup with
  | some result =>
    { code := 200
    , data := some { result := result, cached := true, fingerprint := fp }
    , errorMsg := none
    , state := st
    , events := getEvents }
  | none =>
    let sanitized := D.sanitizeSQL req.sql req.privacyMode
    let run := explainSQLService D req.sql sanitized req.dialect req.schema req.explainPlan
    match run.2 with
    | Except.ok result =>
      let st2 := if req.cache then cacheSet st cacheKey result else st
      let setEvents := if req.cache then [Event.cacheSetOp cacheKey] else []
      { code := 200
      , data := some { result := result, cached := false, fingerprint := fp }
      , errorMsg := none
      , state := st2
      , events := getEvents ++ run.1 ++ setEvents }
    | Except.error e =>
      { code := 500
      , data := none
      , errorMsg := some e
      , state := st
      , events := getEvents ++ run.1 }

/-- The `services` object of the `/health` response. -/
structure HealthServices where
  api : String
  database : String
  cache : String
deriving DecidableEq

/-- The `/health` response body (timestamp and uptime omitted: both are
clock readings independent of every service check). -/
structure HealthResponse where
  status : String
  services : HealthServices
deriving DecidableEq

/-- The `/health` handler from `routes/health.ts` (registered by
`registerHealthRoutes`, lines 368-393): awaits `checkDBHealth()` and builds
the response from its boolean alone; the cache entry is the literal
`'ok'` (source comment: `// TODO: check Redis`), and the Redis state is
never consulted. -/
def healthHandler (dbHealth : Bool) (_redis : CacheState) : Nat × HealthResponse :=
  ( if dbHealth then 200 else 503
  , { status := if dbHealth then "healthy" else "degraded"
    , services :=
      { api := "ok"
      , database := if dbHealth then "ok" else "error"
      , cache := "ok" } } )

/-- Is this event a backend invocation? -/
def isBackendCallEvent : Event → Bool
  | Event.backendCall _ => true
  | _ => false

/-- Is this event a stampede-lock operation? -/
def isStampedeLockEvent : Event → Bool
  | Event.stampedeLockAcquire _ => true
  | Event.stampedeLockRelease _ => true
  | _ => false

/-- Is this event a persistence write? -/
def isPersistEvent : Event → Bool
  | Event.persistWrite _ => true
  | _ => false

/-- Number of backend invocations recorded in a trace. -/
def countBackendCalls (evs : List Event) : Nat :=
  (evs.filter isBackendCallEvent).length

/-- Does a trace contain any stampede-lock operation? -/
def hasStampedeLockEvent (evs : List Event) : Bool :=
  evs.any isStampedeLockEvent

/-- Does a trace contain a persistence write? -/
def hasPersistEvent (evs : List Event) : Bool :=
  evs.any isPersistEvent

/-- Progress of one in-flight `/v1/explain` request through the handler's
await points: before the `cacheGet`, between the `cacheGet` and the
service call, between the service call and the `cacheSet`, or answered. -/
inductive TaskPhase where
  | ready
  | computing
  | writing (result : ExplanationResult)
  | responded (code : Nat) (cached : Bool)
deriving DecidableEq

/-- Shared state of several concurrent `/v1/explain` requests: the cache,
each request's progress, the number of backend invocations so far, and the
interleaved trace of cache-library and backend operations. -/
structure ConcSys where
  cache : CacheState
  tasks : List TaskPhase
  backendCalls : Nat
  trace : List Event
deriving DecidableEq

/-- Run the next awaited step of task `i` (identical requests `req` for all
tasks).  The steps and their order are those of `handleExplain`; between two
steps of one task, any other task may run — the cache is read again only
where the source reads it. -/
def stepTask (D : Deps) (req : ExplainReq) (sys : ConcSys) (i : Nat) : ConcSys :=
  let fp := D.fingerprint req.sql
  let cacheKey := "explain:" ++ fp.hash
  match sys.tasks.get? i with
  | none => sys
  | some phase =>
    match phase with
    | TaskPhase.ready =>
      if req.cache then
        match cacheGet sys.cache cacheKey with
        | some _ =>
          { sys with
              tasks := sys.tasks.set i (TaskPhase.responded 200 true)
            , trace := sys.trace ++ [Event.cacheGetOp cacheKey] }
        | none =>
          { sys with
              tasks := sys.tasks.set i TaskPhase.computing
            , trace := sys.trace ++ [Event.cacheGetOp cacheKey] }
      else { sys with tasks := sys.tasks.set i TaskPhase.computing }
    | TaskPhase.computing =>
      let sanitized := D.sanitizeSQL req.sql req.privacyMode
      let run := explainSQLService D req.sql sanitized req.dialect req.schema req.explainPlan
      match run.2 with
      | Except.ok result =>
        { sys with
            tasks := sys.tasks.set i
              (if req.cache then TaskPhase.writing result
               else TaskPhase.responded 200 false)
          , backendCalls := sys.backendCalls + countBackendCalls run.1
          , trace := sys.trace ++ run.1 }
      | Except.error _ =>
        { sys with
            tasks := sys.tasks.set i (TaskPhase.responded 500 false)
          , backendCalls := sys.backendCalls + countBackendCalls run.1
          , trace := sys.trace ++ run.1 }
    | TaskPhase.writing result =>
      { sys with
          cache := cacheSet sys.cache cacheKey result
        , tasks := sys.tasks.set i (TaskPhase.responded 200 false)
        , trace := sys.trace ++ [Event.cacheSetOp cacheKey] }
    | TaskPhase.responded _ _ => sys

/-- Run a whole interleaving: the schedule names, in order, the task whose
next step runs. -/
def runSchedule (D : Deps) (req : ExplainReq) (sys : ConcSys)
    (schedule : List Nat) : ConcSys :=
  schedule.foldl (stepTask D req) sys

/-- Initial state: an empty, reachable cache and `n` requests not yet run. -/
def initConcSys (n : Nat) : ConcSys :=
  { cache := { entries := [], up := true }
  , tasks := List.replicate n TaskPhase.ready
  , backendCalls := 0
  , trace := [] }

/-- A concrete plan node, used to instantiate the external parsers. -/
def demoNode : ExplainNode :=
  ExplainNode.node "1" "SeqScan" (some 1000) none (some { startup := 0, total := 100 }) []

/-- A concrete instantiation of the external engine parser collaborators. -/
def demoParsers : EngineParsers :=
  { parsePostgresExplainJson := fun _ => Except.ok demoNode
  , parsePostgresExplainText := fun _ => Except.error "unparsable text plan"
  , parseMysqlExplainJson := fun _ => Except.ok demoNode
  , parseSqliteExplainQueryPlan := fun _ => Except.ok demoNode }

/-- The deterministic stand-in variant wired as the orchestrator's backend,
with a fixed random draw for the single run being modelled. -/
def stubProvider (request : LLMRequest) : Except String ExplanationResult :=
  Except.ok (LocalStubProvider.explainSQL request 42)

/-- A concrete instantiation of the external fingerprinter: stable identity
derived from the SQL text alone. -/
def demoFingerprint (sql : String) : QueryFingerprint :=
  { hash := "fp_" ++ sql
  , pattern := sql
  , tables := []
  , joinCount := 0
  , whereClauseComplexity := 0 }

/-- A concrete analyzer recommendation. -/
def demoRecommendation : Recommendation :=
  { type := "btree"
  , table := "users"
  , columns := ["created_at"]
  , reason := "sequential scan on large table" }

/-- Concrete collaborators for witness runs: the stub backend, the demo
parsers, identity sanitization, and one analyzer recommendation per plan. -/
def demoDeps : Deps :=
  { providerExplainSQL := stubProvider
  , parsers := demoParsers
  , fingerprint := demoFingerprint
  , sanitizeSQL := fun sql _ => sql
  , analyzeExplainPlan := fun _ => [demoRecommendation]
  , persistOk := true }

/-- A concrete SQL text. -/
def demoSql : String := "SELECT name FROM users WHERE id = 1"

/-- A concrete validated `/v1/explain` request with caching enabled. -/
def demoReq : ExplainReq :=
  { sql := demoSql
  , dialect := "postgres"
  , schema := none
  , explainPlan := none
  , privacyMode := true
  , cache := true }

/-- The LLM request the service builds for `demoSql` with plan `"[]"`. -/
def demoPlanLLMReq : LLMRequest :=
  { sql := demoSql
  , sanitizedSql := some demoSql
  , dialect := "postgres"
  , schema := none
  , explainPlan := some "[]"
  , privacyMode := true }

/-- A concrete request for the stand-in backend. -/
def demoStubReq : LLMRequest :=
  { sql := "SELECT 1"
  , sanitizedSql := none
  , dialect := "postgres"
  , schema := none
  , explainPlan := none
  , privacyMode := true }

/-- A MySQL table-format EXPLAIN text, which is not JSON. -/
def demoMysqlPlanText : String := "id select_type table"

theorem countBackendCalls_append (a b : List Event) :
    countBackendCalls (a ++ b) = countBackendCalls a + countBackendCalls b := by
  simp [countBackendCalls, List.filter_append]

theorem countBackendCalls_explainSQLService (D : Deps)
    (s ss d : String) (sc ep : Option String) :
    countBackendCalls (explainSQLService D s ss d sc ep).1 = 1 := by
  unfold explainSQLService
  repeat' split
  all_goals simp [countBackendCalls, isBackendCallEvent]
  all_goals split
  all_goals simp [countBackendCalls, isBackendCallEvent]

/-- C1: the `/v1/explain` handler performs no stampede locking at all —
`acquireStampedeLock` exists in `lib/cache.ts` but is never called.  In the
concurrent model of the handler (identical requests, empty cache), the
interleaving in which all three requests pass their `cacheGet` before any
`cacheSet` makes every request observe a miss and invoke the backend, so 3
concurrent requests produce 3 backend invocations — exactly N, not a
smaller bound — and the combined trace contains no lock operation. -/
theorem explain_route_stampede_unprotected :
    (runSchedule demoDeps demoReq (initConcSys 3)
      [0, 1, 2, 0, 1, 2, 0, 1, 2]).backendCalls = 3 ∧
    hasStampedeLockEvent (runSchedule demoDeps demoReq (initConcSys 3)
      [0, 1, 2, 0, 1, 2, 0, 1, 2]).trace = false :=
  ⟨rfl, rfl⟩

/-- C4 counterexample: the reply `123` is valid JSON that does not match the
`ExplanationResult` shape, yet `OpenAIProvider.explainSQL` accepts it whole
(the `as ExplanationResult` cast validates nothing), instead of failing with
the invalid-response error the claim requires. -/
theorem openai_reply_accepted_without_shape_check :
    parseOpenAIResponse "123" = Except.ok (Json.num "123") ∧
    specExplanationResultShape (Json.num "123") = false :=
  ⟨rfl, rfl⟩

/-- C4 amended: the remote variant rejects exactly the replies that fail
JSON parsing (with the `Invalid LLM response format` error); every reply
that parses as JSON is accepted verbatim, with no shape validation. -/
theorem openai_reply_json_only_validation (responseText : String) :
    (jsonParse responseText = none →
      parseOpenAIResponse responseText = Except.error "Invalid LLM response format") ∧
    (∀ j, jsonParse responseText = some j →
      parseOpenAIResponse responseText = Except.ok j) := by
  constructor
  · intro h
    simp [parseOpenAIResponse, h]
  · intro j h
    simp [parseOpenAIResponse, h]

/-- Witness for `openai_reply_json_only_validation` at two concrete replies:
one that is not JSON and one that is. -/
theorem openai_reply_json_only_validation_witness :
    parseOpenAIResponse "nonsense" = Except.error "Invalid LLM response format" ∧
    parseOpenAIResponse "123" = Except.ok (Json.num "123") :=
  ⟨(openai_reply_json_only_validation "nonsense").1 rfl,
   (openai_reply_json_only_validation "123").2 (Json.num "123") rfl⟩

/-- C5: `LocalStubProvider.explainSQL` is not a pure function of the SQL
text: `executionTimeMs` is `Math.random() * 100`, a fresh draw per call, so
two calls on the same request differ — contradicting both the claim and the
source's own comment that the stub "returns deterministic canned responses".
Every other field, including the fixed low confidence, is determined by the
SQL text alone: overriding `executionTimeMs` makes the two results equal. -/
theorem local_stub_execution_time_not_deterministic :
    LocalStubProvider.explainSQL demoStubReq 0 ≠ LocalStubProvider.explainSQL demoStubReq 50 ∧
    { LocalStubProvider.explainSQL demoStubReq 0 with executionTimeMs := 50 } =
      LocalStubProvider.explainSQL demoStubReq 50 ∧
    (LocalStubProvider.explainSQL demoStubReq 0).confidence = Confidence.low :=
  ⟨by decide, rfl, rfl⟩

/-- C6: with no remote credential configured and the default provider name,
`createLLMProvider` throws from the `OpenAIProvider` constructor instead of
yielding the stand-in — also in a test context (`NODE_ENV = "test"`),
because the `'openai'` branch is checked first; and in a test context with a
credential set it selects the remote variant.  This contradicts the claim
(and the README's "automatically used in test environment"). -/
theorem provider_factory_ignores_test_env_for_default_name :
    createLLMProvider { llmProviderVar := "", nodeEnv := "test", openaiApiKey := "" } "" =
      Except.error "OPENAI_API_KEY environment variable not set" ∧
    createLLMProvider { llmProviderVar := "", nodeEnv := "production", openaiApiKey := "" } "" =
      Except.error "OPENAI_API_KEY environment variable not set" ∧
    createLLMProvider { llmProviderVar := "", nodeEnv := "test", openaiApiKey := "sk-demo" } "" =
      Except.ok (ProviderKind.openai "sk-demo") :=
  ⟨rfl, rfl, rfl⟩

/-- C7 counterexample: for dialect `postgres`, the input `\x7b\x7d` parses
as JSON but is not an array, so the postgres branch returns nothing and
control falls through to `throw new Error('Unsupported dialect: postgres')`
— the claim says a postgres input is never rejected as unsupported. -/
theorem postgres_nonarray_json_rejected_as_unsupported :
    parseExplainPlan demoParsers "\x7b\x7d" "postgres" =
      Except.error "Unsupported dialect: postgres" :=
  rfl

/-- C10: the `/health` handler reports `services.cache` as `ok`
unconditionally and never consults the Redis state; its HTTP code and
overall status are functions of the database check alone. -/
theorem health_ignores_cache_state (db : Bool) (cs1 cs2 : CacheState) :
    healthHandler db cs1 = healthHandler db cs2 ∧
    (healthHandler db cs1).2.services.cache = "ok" ∧
    (healthHandler db cs1).1 = (if db then 200 else 503) ∧
    (healthHandler db cs1).2.status = (if db then "healthy" else "degraded") :=
  ⟨rfl, rfl, rfl, rfl⟩

/-- C7 amended: the dispatch fails with `UnsupportedDialect` for every
dialect other than postgres, mysql and sqlite, and additionally for
postgres input that parses as non-array JSON (the fall-through); postgres
input parsing as a JSON array goes to the JSON-shape parser (with text
fallback if that parser throws), and postgres input failing JSON parse goes
to the text-format parser. -/
theorem parseExplainPlan_dispatch (P : EngineParsers) (out d : String) :
    (d ≠ "postgres" → d ≠ "mysql" → d ≠ "sqlite" →
      parseExplainPlan P out d = Except.error ("Unsupported dialect: " ++ d)) ∧
    (jsonParse out = none →
      parseExplainPlan P out "postgres" = P.parsePostgresExplainText out) ∧
    (∀ xs, jsonParse out = some (Json.arr xs) →
      parseExplainPlan P out "postgres" =
        (match P.parsePostgresExplainJson xs with
         | Except.ok n => Except.ok n
         | Except.error _ => P.parsePostgresExplainText out)) ∧
    (∀ j, jsonParse out = some j → j.isArr = false →
      parseExplainPlan P out "postgres" =
        Except.error "Unsupported dialect: postgres") := by
  refine ⟨fun h1 h2 h3 => ?_, fun h => ?_, fun xs h => ?_, fun j h harr => ?_⟩
  · simp [parseExplainPlan, h1, h2, h3]
  · simp [parseExplainPlan, h]
  · simp [parseExplainPlan, h]
  · cases j <;> simp_all [parseExplainPlan, Json.isArr]

/-- Witness for `parseExplainPlan_dispatch`: an unknown dialect, a postgres
text plan, a postgres JSON-array plan, and a postgres non-array JSON plan. -/
theorem parseExplainPlan_dispatch_witness :
    parseExplainPlan demoParsers "out" "oracle" =
      Except.error "Unsupported dialect: oracle" ∧
    parseExplainPlan demoParsers "not json" "postgres" =
      demoParsers.parsePostgresExplainText "not json" ∧
    parseExplainPlan demoParsers "[]" "postgres" =
      (match demoParsers.parsePostgresExplainJson [] with
       | Except.ok n => Except.ok n
       | Except.error _ => demoParsers.parsePostgresExplainText "[]") ∧
    parseExplainPlan demoParsers "1" "postgres" =
      Except.error "Unsupported dialect: postgres" :=
  ⟨(parseExplainPlan_dispatch demoParsers "out" "oracle").1
      (by decide) (by decide) (by decide),
   (parseExplainPlan_dispatch demoParsers "not json" "postgres").2.1 rfl,
   (parseExplainPlan_dispatch demoParsers "[]" "postgres").2.2.1 [] rfl,
   (parseExplainPlan_dispatch demoParsers "1" "postgres").2.2.2 (Json.num "1") rfl rfl⟩

/-- C3: when a supplied `explainPlan` parses successfully, the service's
result is the backend result with exactly one mapped suggestion per
analyzer recommendation appended after all backend suggestions, in
recommendation order — the backend list is kept intact as a prefix — and
the mapping gives severity `high` exactly when the reason text contains
"missing" or "sequential", the `Add {type} index on {table}({columns})`
title, and a synthesized `CREATE INDEX idx_{table}_{firstColumn}` change. -/
theorem heuristic_merge_appends_in_order (D : Deps)
    (originalSql sanitizedSql dialect ep : String) (schema : Option String)
    (p : ExplainNode) (base : ExplanationResult)
    (hep : ep ≠ "")
    (hparse : parseExplainPlan D.parsers ep dialect = Except.ok p)
    (hprov : D.providerExplainSQL
      { sql := originalSql, sanitizedSql := some sanitizedSql, dialect := dialect
      , schema := schema, explainPlan := some ep, privacyMode := true } = Except.ok base) :
    (explainSQLService D originalSql sanitizedSql dialect schema (some ep)).2 =
      Except.ok { base with optimizations :=
        base.optimizations ++ (D.analyzeExplainPlan p).map recommendationToSuggestion } ∧
    (∀ rec c cs, rec.columns = c :: cs →
      recommendationToSuggestion rec =
        { title := "Add " ++ rec.type ++ " index on " ++ rec.table ++ "(" ++
            joinComma rec.columns ++ ")"
        , severity :=
            if strContains rec.reason "missing" || strContains rec.reason "sequential"
            then Severity.high else Severity.medium
        , reason := rec.reason
        , change := "CREATE INDEX idx_" ++ rec.table ++ "_" ++ c ++ " ON " ++
            rec.table ++ "(" ++ joinComma rec.columns ++ ")"
        , estimatedImpact := "2-10x faster queries" }) := by
  constructor
  · simp [explainSQLService, jsTruthy, hep, hparse, jsOrOpt, hprov]
  · intro rec c cs h
    simp [recommendationToSuggestion, headOrUndefined, h]

/-- Witness for `heuristic_merge_appends_in_order`: the demo deps with plan
`[]` for postgres, the stub backend, and the demo recommendation. -/
theorem heuristic_merge_appends_in_order_witness :
    (explainSQLService demoDeps demoSql demoSql "postgres" none (some "[]")).2 =
      Except.ok { LocalStubProvider.explainSQL demoPlanLLMReq 42 with optimizations :=
        ((LocalStubProvider.explainSQL demoPlanLLMReq 42).optimizations ++
          (demoDeps.analyzeExplainPlan demoNode).map recommendationToSuggestion) } ∧
    recommendationToSuggestion demoRecommendation =
      { title := "Add " ++ demoRecommendation.type ++ " index on " ++
          demoRecommendation.table ++ "(" ++ joinComma demoRecommendation.columns ++ ")"
      , severity :=
          if strContains demoRecommendation.reason "missing" ||
              strContains demoRecommendation.reason "sequential"
          then Severity.high else Severity.medium
      , reason := demoRecommendation.reason
      , change := "CREATE INDEX idx_" ++ demoRecommendation.table ++ "_" ++ "created_at" ++
          " ON " ++ demoRecommendation.table ++ "(" ++ joinComma demoRecommendation.columns ++ ")"
      , estimatedImpact := "2-10x faster queries" } :=
  ⟨(heuristic_merge_appends_in_order demoDeps demoSql demoSql "postgres" "[]" none
      demoNode (LocalStubProvider.explainSQL demoPlanLLMReq 42)
      (by decide) rfl rfl).1,
   (heuristic_merge_appends_in_order demoDeps demoSql demoSql "postgres" "[]" none
      demoNode (LocalStubProvider.explainSQL demoPlanLLMReq 42)
      (by decide) rfl rfl).2 demoRecommendation "created_at" [] rfl⟩

/-- C8: an `explainPlan` whose parse fails is logged (the `warnPlanParse`
event appears in the trace) and treated as an absent plan: the request never
fails because of it, and — for a backend insensitive to the raw plan text
being forwarded, such as the stub — the returned result equals the result of
the same request with no `explainPlan` supplied. -/
theorem plan_parse_failure_degrades (D : Deps)
    (originalSql sanitizedSql dialect ep e : String) (schema : Option String)
    (hep : ep ≠ "")
    (hfail : parseExplainPlan D.parsers ep dialect = Except.error e)
    (hprov : D.providerExplainSQL
        { sql := originalSql, sanitizedSql := some sanitizedSql, dialect := dialect
        , schema := schema, explainPlan := some ep, privacyMode := true } =
      D.providerExplainSQL
        { sql := originalSql, sanitizedSql := some sanitizedSql, dialect := dialect
        , schema := schema, explainPlan := none, privacyMode := true }) :
    (explainSQLService D originalSql sanitizedSql dialect schema (some ep)).2 =
      (explainSQLService D originalSql sanitizedSql dialect schema none).2 ∧
    Event.warnPlanParse e ∈
      (explainSQLService D originalSql sanitizedSql dialect schema (some ep)).1 := by
  constructor
  · cases hres : D.providerExplainSQL
      { sql := originalSql, sanitizedSql := some sanitizedSql, dialect := dialect
      , schema := schema, explainPlan := none, privacyMode := true } with
    | error err =>
      simp [explainSQLService, jsTruthy, hep, hfail, jsOrOpt, hprov, hres]
    | ok base =>
      simp [explainSQLService, jsTruthy, hep, hfail, jsOrOpt, hprov, hres]
  · cases hres : D.providerExplainSQL
      { sql := originalSql, sanitizedSql := some sanitizedSql, dialect := dialect
      , schema := schema, explainPlan := none, privacyMode := true } with
    | error err =>
      simp [explainSQLService, jsTruthy, hep, hfail, jsOrOpt, hprov, hres]
    | ok base =>
      simp [explainSQLService, jsTruthy, hep, hfail, jsOrOpt, hprov, hres]

/-- Witness for `plan_parse_failure_degrades`: a MySQL table-format EXPLAIN
text, which is not JSON, with the stub backend. -/
theorem plan_parse_failure_degrades_witness :
    (explainSQLService demoDeps demoSql demoSql "mysql" none (some demoMysqlPlanText)).2 =
      (explainSQLService demoDeps demoSql demoSql "mysql" none none).2 ∧
    Event.warnPlanParse "MySQL text format EXPLAIN not yet supported" ∈
      (explainSQLService demoDeps demoSql demoSql "mysql" none (some demoMysqlPlanText)).1 :=
  plan_parse_failure_degrades demoDeps demoSql demoSql "mysql" demoMysqlPlanText
    "MySQL text format EXPLAIN not yet supported" none (by decide) rfl rfl

/-- C9 counterexample: the Prisma persistence write is executed — and
awaited — inside `explainSQLService` before the function returns: it
appears in the trace of awaited effects of this concrete run, refuting
"never awaited by the caller path and never blocks the response". -/
theorem persistence_write_awaited_in_caller_path :
    hasPersistEvent (explainSQLService demoDeps demoSql demoSql "postgres" none none).1 =
      true :=
  rfl

/-- C9 amended: the persistence write's failure is logged (a `warnPersist`
event) and never propagated — the returned result is unchanged whether the
write succeeds or fails — but the write itself runs synchronously in the
caller path, before the service returns, on every successful run. -/
theorem persistence_failure_isolated (D : Deps) (s ss d : String)
    (sc ep : Option String) :
    (explainSQLService { D with persistOk := false } s ss d sc ep).2 =
      (explainSQLService { D with persistOk := true } s ss d sc ep).2 ∧
    ((explainSQLService { D with persistOk := false } s ss d sc ep).2.isOk = true →
      Event.warnPersist ∈ (explainSQLService { D with persistOk := false } s ss d sc ep).1) ∧
    ((explainSQLService D s ss d sc ep).2.isOk = true →
      hasPersistEvent (explainSQLService D s ss d sc ep).1 = true) := by
  refine ⟨?_, ?_, ?_⟩
  · unfold explainSQLService
    repeat' split
    all_goals simp_all
    all_goals split
    all_goals simp_all
  · unfold explainSQLService
    intro h
    repeat' split
    all_goals simp_all
    all_goals split at h
    all_goals simp_all [Except.isOk, Except.toBool]
  · unfold explainSQLService
    intro h
    repeat' split
    all_goals simp_all [hasPersistEvent, isPersistEvent]
    all_goals split at h
    all_goals simp_all [hasPersistEvent, isPersistEvent, Except.isOk, Except.toBool]

/-- Witness for `persistence_failure_isolated` on a concrete run. -/
theorem persistence_failure_isolated_witness :
    (explainSQLService { demoDeps with persistOk := false }
        demoSql demoSql "postgres" none none).2 =
      (explainSQLService { demoDeps with persistOk := true }
        demoSql demoSql "postgres" none none).2 ∧
    Event.warnPersist ∈ (explainSQLService { demoDeps with persistOk := false }
        demoSql demoSql "postgres" none none).1 ∧
    hasPersistEvent (explainSQLService demoDeps demoSql demoSql "postgres" none none).1 =
      true :=
  ⟨(persistence_failure_isolated demoDeps demoSql demoSql "postgres" none none).1,
   (persistence_failure_isolated demoDeps demoSql demoSql "postgres" none none).2.1 rfl,
   (persistence_failure_isolated demoDeps demoSql demoSql "postgres" none none).2.2 rfl⟩

/-- C2: with caching enabled and a reachable cache, a first request that
misses computes the result, answers it with `cached = false` and stores it;
an identical second request hits the stored entry and answers the very same
result object with `cached = true`, its trace being the single `cacheGet` —
no backend call, no plan parsing, no persistence write — so the backend is
invoked exactly once across the two runs. -/
theorem cache_idempotence (D : Deps) (req : ExplainReq) (st : CacheState)
    (hc : req.cache = true) (hup : st.up = true)
    (hmiss : assocFind st.entries ("explain:" ++ (D.fingerprint req.sql).hash) = none)
    (hok : (explainSQLService D req.sql (D.sanitizeSQL req.sql req.privacyMode)
      req.dialect req.schema req.explainPlan).2.isOk = true) :
    (handleExplain D req st).code = 200 ∧
    (handleExplain D req st).data.map RespData.cached = some false ∧
    (handleExplain D req (handleExplain D req st).state).code = 200 ∧
    (handleExplain D req (handleExplain D req st).state).data =
      (handleExplain D req st).data.map (fun d => { d with cached := true }) ∧
    countBackendCalls (handleExplain D req st).events = 1 ∧
    (handleExplain D req (handleExplain D req st).state).events =
      [Event.cacheGetOp ("explain:" ++ (D.fingerprint req.sql).hash)] := by
  cases hres : (explainSQLService D req.sql (D.sanitizeSQL req.sql req.privacyMode)
      req.dialect req.schema req.explainPlan).2 with
  | error err =>
    rw [hres] at hok
    simp [Except.isOk, Except.toBool] at hok
  | ok r =>
    have h1 : handleExplain D req st =
        { code := 200
        , data := some { result := r, cached := false, fingerprint := D.fingerprint req.sql }
        , errorMsg := none
        , state := { entries := ("explain:" ++ (D.fingerprint req.sql).hash, r) :: st.entries
                   , up := true }
        , events := [Event.cacheGetOp ("explain:" ++ (D.fingerprint req.sql).hash)] ++
            (explainSQLService D req.sql (D.sanitizeSQL req.sql req.privacyMode)
              req.dialect req.schema req.explainPlan).1 ++
            [Event.cacheSetOp ("explain:" ++ (D.fingerprint req.sql).hash)] } := by
      unfold handleExplain
      rw [hc]
      simp only [cacheGet, hup, if_true, hmiss, hres, cacheSet]
    rw [h1]
    have h2 : handleExplain D req
        { entries := ("explain:" ++ (D.fingerprint req.sql).hash, r) :: st.entries
        , up := true } =
        { code := 200
        , data := some { result := r, cached := true, fingerprint := D.fingerprint req.sql }
        , errorMsg := none
        , state := { entries := ("explain:" ++ (D.fingerprint req.sql).hash, r) :: st.entries
                   , up := true }
        , events := [Event.cacheGetOp ("explain:" ++ (D.fingerprint req.sql).hash)] } := by
      unfold handleExplain
      rw [hc]
      simp [cacheGet, assocFind]
    rw [h2]
    refine ⟨rfl, rfl, rfl, rfl, ?_, rfl⟩
    simpa [countBackendCalls_append, countBackendCalls, isBackendCallEvent] using
      countBackendCalls_explainSQLService D req.sql (D.sanitizeSQL req.sql req.privacyMode)
        req.dialect req.schema req.explainPlan

/-- Witness for `cache_idempotence`: the demo request against an empty,
reachable cache with the stub backend. -/
theorem cache_idempotence_witness :
    (handleExplain demoDeps demoReq { entries := [], up := true }).code = 200 ∧
    (handleExplain demoDeps demoReq { entries := [], up := true }).data.map RespData.cached =
      some false ∧
    (handleExplain demoDeps demoReq
      (handleExplain demoDeps demoReq { entries := [], up := true }).state).code = 200 ∧
    (handleExplain demoDeps demoReq
        (handleExplain demoDeps demoReq { entries := [], up := true }).state).data =
      (handleExplain demoDeps demoReq { entries := [], up := true }).data.map
        (fun d => { d with cached := true }) ∧
    countBackendCalls (handleExplain demoDeps demoReq { entries := [], up := true }).events = 1 ∧
    (handleExplain demoDeps demoReq
        (handleExplain demoDeps demoReq { entries := [], up := true }).state).events =
      [Event.cacheGetOp ("explain:" ++ (demoDeps.fingerprint demoReq.sql).hash)] :=
  cache_idempotence demoDeps demoReq { entries := [], up := true } rfl rfl rfl rfl

end SqlPlayground
